import Mathlib

/-!
Shallow embedding of the Transcripts_MVP processing pipeline
(YouTube-to-Notion transcript/summary processor).

The definitions below are translated from the Python sources:
  * `src/src/utils/rate_limiter.py`        — the rate governor,
  * `src/src/summarizer/multi_part_summarizer.py` — circuit breaker + retry wrapper,
  * `src/src/database/models.py`           — the local idempotency ledger,
  * `src/src/transcript/extractor.py`      — the rate-gated content fetch,
  * `src/src/backup/markdown_backup.py`    — the fallback artifact writer,
  * `src/src/notion/database_client.py`    — remote tracking store interaction,
  * `src/src/handlers/playlist_handler.py` — container (playlist) expansion,
  * `src/main_database.py`                 — the item processor and batch loop.

Wall-clock instants and durations are modelled as integers (seconds):
every delay, backoff and threshold of the program is a whole number of
seconds, so integer instants suffice for the control flow modelled here.
External collaborators (YouTube APIs, the Anthropic API, the Notion API,
the filesystem) are modelled as oracle parameters giving the outcome the
collaborator would produce; the code's own control flow around those
outcomes is transcribed faithfully.
-/

namespace TranscriptsMVP

/-! ### String helpers

Python does substring tests (`"x" in s`), `str.split`, `str.strip` and
slicing on its built-in strings.  These helpers implement the same
operations on the underlying character lists so that every definition
stays executable and kernel-reducible. -/

/-- Does `pat` occur at the start of `s`?  (List-of-characters form of the
Python `str.startswith`.) -/
def starts_with : List Char → List Char → Bool
  | [], _ => true
  | _ :: _, [] => false
  | p :: ps, c :: cs => p == c && starts_with ps cs

/-- The remainder of `s` after the first occurrence of `pat`, or `none` when
`pat` does not occur.  Implements the substring search used for Python's
`in` operator and `re.search` on literal markers. -/
def after_first (pat : List Char) : List Char → Option (List Char)
  | [] => if pat.isEmpty then some [] else none
  | c :: rest =>
      if starts_with pat (c :: rest) then some ((c :: rest).drop pat.length)
      else after_first pat rest

/-- Python `pat in s` on strings. -/
def str_contains (s pat : String) : Bool := (after_first pat.data s.data).isSome

/-- Python `s.startswith(pat)` on strings. -/
def str_starts (s pat : String) : Bool := starts_with pat.data s.data

/-- Python `s.split(sep)` for a one-character separator. -/
def split_on_char (sep : Char) : List Char → List (List Char)
  | [] => [[]]
  | c :: rest =>
    let r := split_on_char sep rest
    if c == sep then [] :: r
    else
      match r with
      | h :: t => (c :: h) :: t
      | [] => [[c]]

/-- Python `s.strip()` (whitespace trimmed from both ends). -/
def trim_chars (l : List Char) : List Char :=
  ((l.dropWhile Char.isWhitespace).reverse.dropWhile Char.isWhitespace).reverse

/-- Python `s[:n]` on strings (character slice). -/
def py_take (s : String) (n : Nat) : String := ⟨s.data.take n⟩

/-- Python `len(s)` on strings (character count). -/
def py_len (s : String) : Nat := s.data.length

/-! ### Rate Governor (`RateLimiter`, src/src/utils/rate_limiter.py) -/

/-- Constructor arguments of `RateLimiter.__init__`. -/
structure RateLimiterParams where
  max_requests_per_hour : Nat
  max_requests_per_day : Nat
  min_delay_seconds : ℤ
  backoff_multiplier : ℤ
deriving DecidableEq

/-- The persisted `self.data` dictionary of `RateLimiter`: request
timestamps, time of the last request, consecutive failure count and the
end of the current backoff window. -/
structure RateLimiterData where
  requests : List ℤ
  last_request_time : Option ℤ
  consecutive_failures : Nat
  backoff_until : Option ℤ
deriving DecidableEq

/-- `RateLimiter._clean_old_requests`: drop request timestamps that are not
strictly newer than `now - 24h`. -/
def clean_old_requests (now : ℤ) (d : RateLimiterData) : RateLimiterData :=
  { d with requests := d.requests.filter (fun t => decide (now - 24 * 3600 < t)) }

/-- Request timestamps inside the trailing one-hour window (the hourly count
of `can_make_request`). -/
def hour_window (now : ℤ) (reqs : List ℤ) : List ℤ :=
  reqs.filter (fun t => decide (now - 3600 < t))

/-- The backoff guard at the top of `can_make_request`: `some remaining` when
`now` is still before `backoff_until`. -/
def backoff_check (now : ℤ) (d : RateLimiterData) : Option ℤ :=
  match d.backoff_until with
  | some b => if now < b then some (b - now) else none
  | none => none

/-- The `(can_make_request, reason)` outcomes of `RateLimiter.can_make_request`.
The constructors carry exactly the data the reason strings carry (the
remaining waits and the window counts), since `wait_if_needed` dispatches on
the reason text and re-parses the wait amount out of it. -/
inductive RateDecision where
  | allowed
  | inBackoff (remaining : ℤ)
  | dailyLimit (count : Nat)
  | hourlyLimit (count : Nat)
  | mustWait (remaining : ℤ)
deriving DecidableEq

/-- `RateLimiter.can_make_request`.  Returns the decision together with the
updated persisted data (`_clean_old_requests` mutates `self.data`). -/
def can_make_request (p : RateLimiterParams) (now : ℤ) (d : RateLimiterData) :
    RateDecision × RateLimiterData :=
  match backoff_check now d with
  | some remaining => (.inBackoff remaining, d)
  | none =>
    let d' := clean_old_requests now d
    let daily := d'.requests.length
    if p.max_requests_per_day ≤ daily then (.dailyLimit daily, d')
    else
      let hourly := (hour_window now d'.requests).length
      if p.max_requests_per_hour ≤ hourly then (.hourlyLimit hourly, d')
      else
        match d'.last_request_time with
        | some last =>
          let required := p.min_delay_seconds * p.backoff_multiplier ^ d'.consecutive_failures
          if now - last < required then (.mustWait (required - (now - last)), d')
          else (.allowed, d')
        | none => (.allowed, d')

/-- Outcome of `RateLimiter.wait_if_needed`: proceed (after sleeping
`waited` seconds) or skip the request. -/
inductive WaitOutcome where
  | proceed (waited : ℤ)
  | skip
deriving DecidableEq

/-- The next wall-clock hour boundary (`datetime.now().replace(minute=0,
second=0, microsecond=0) + 1 hour`), via flooring division. -/
def next_hour_boundary (now : ℤ) : ℤ := 3600 * (now.fdiv 3600 + 1)

/-- `RateLimiter.wait_if_needed`: backoff-period and daily-limit rejections
skip outright; an unmet minimum delay is slept through only when it is at
most 60 seconds; an exhausted hourly window is slept through only when the
next hour boundary is at most 300 seconds away. -/
def wait_if_needed (p : RateLimiterParams) (now : ℤ) (d : RateLimiterData) :
    WaitOutcome × RateLimiterData :=
  match can_make_request p now d with
  | (.allowed, d') => (.proceed 0, d')
  | (.inBackoff _, d') => (.skip, d')
  | (.dailyLimit _, d') => (.skip, d')
  | (.mustWait w, d') =>
      if 60 < w then (.skip, d') else (.proceed w, d')
  | (.hourlyLimit _, d') =>
      let w := next_hour_boundary now - now
      if 300 < w then (.skip, d') else (.proceed w, d')

/-- `RateLimiter.record_request`: append the timestamp, remember it as the
last request; on success reset failures and backoff, on failure increment
failures and, from the third consecutive failure on, set
`backoff_until = now + min(60, 5 * 2^(failures-3))` minutes. -/
def record_request (now : ℤ) (success : Bool) (d : RateLimiterData) : RateLimiterData :=
  let d := { d with requests := d.requests ++ [now], last_request_time := some now }
  if success then { d with consecutive_failures := 0, backoff_until := none }
  else
    let f := d.consecutive_failures + 1
    let d := { d with consecutive_failures := f }
    if 3 ≤ f then
      { d with backoff_until := some (now + 60 * (min 60 (5 * 2 ^ (f - 3)) : ℕ)) }
    else d

/-! ### Volatile-service call wrapper
(`MultiPartSummarizer`, src/src/summarizer/multi_part_summarizer.py) -/

/-- The circuit-breaker threshold of `MultiPartSummarizer.__init__`
(`self.circuit_breaker_threshold = 3`). -/
def circuit_breaker_threshold : Nat := 3

/-- The circuit-breaker cooldown of `MultiPartSummarizer.__init__`
(`self.circuit_breaker_timeout = 300` seconds). -/
def circuit_breaker_timeout : ℤ := 300

/-- The mutable breaker/pacing fields of `MultiPartSummarizer`.  Wall time
during sleeps and network calls is not modelled: each wrapper invocation is
stamped with its single entry instant `now`. -/
structure SummarizerState where
  consecutive_failures : Nat
  last_failure_time : Option ℤ
  last_api_call_time : ℤ
deriving DecidableEq

/-- The freshly constructed summarizer (`__init__` sets failures to 0, no
last failure, `last_api_call_time = 0`). -/
def initial_summarizer_state : SummarizerState := ⟨0, none, 0⟩

/-- `MultiPartSummarizer._check_circuit_breaker`: report the breaker open
when the failure count has reached the threshold and the cooldown since the
last failure has not elapsed; once the cooldown has elapsed, reset the
failure count and the last-failure time. -/
def check_circuit_breaker (now : ℤ) (s : SummarizerState) : Bool × SummarizerState :=
  if circuit_breaker_threshold ≤ s.consecutive_failures then
    match s.last_failure_time with
    | some lf =>
        if now - lf < circuit_breaker_timeout then (true, s)
        else (false, { s with consecutive_failures := 0, last_failure_time := none })
    | none => (false, s)
  else (false, s)

/-- Outcome of one underlying `client.messages.create` attempt, classified
the way `_make_api_call`'s `except` clause classifies `str(e)`: success,
transient ("overloaded" / "529" / "rate" in the message), or any other
exception. -/
inductive ApiOutcome where
  | success (text : String)
  | transient
  | fatal (msg : String)

/-- Result of one `_make_api_call` invocation.  `circuitOpen` and
`overloaded` are the two `raise Exception(...)` sites; `error` re-raises a
non-transient attempt failure. -/
inductive CallResult where
  | ok (text : String)
  | circuitOpen
  | overloaded
  | error (msg : String)
deriving DecidableEq

/-- Observable effects of one `_make_api_call` invocation: how many
`messages.create` attempts were made, the backoff sleeps of the retry loop,
and the proactive adaptive-rate-limit sleep taken before the loop. -/
structure CallTrace where
  attempts : Nat
  retryWaits : List ℤ
  proactiveWait : ℤ
deriving DecidableEq

/-- The `for attempt in range(max_retries)` loop of `_make_api_call`,
parameterised by the outcome `req attempt` of each attempt.  Returns the
loop result (`none` when all retries are exhausted), the number of attempts
made, and the backoff sleeps `30 * 2^attempt` performed after transient
failures. -/
def api_retry_loop (req : Nat → ApiOutcome) : Nat → Nat → Option (Except String String) × Nat × List ℤ
  | _, 0 => (none, 0, [])
  | attempt, remaining + 1 =>
    match req attempt with
    | .success t => (some (.ok t), 1, [])
    | .fatal msg => (some (.error msg), 1, [])
    | .transient =>
      let w : ℤ := 30 * 2 ^ attempt
      let (out, n, ws) := api_retry_loop req (attempt + 1) remaining
      (out, n + 1, w :: ws)

/-- `MultiPartSummarizer._make_api_call` (max_retries = 6): check the
circuit breaker first and raise without any attempt when it is open; sleep
the adaptive proactive delay `api_delay + 10 * consecutive_failures`; then
run the retry loop.  Success resets the breaker and stamps
`last_api_call_time`; exhaustion of all retries increments the breaker's
failure count and stamps `last_failure_time`; a non-transient error
propagates with the breaker state unchanged. -/
def make_api_call (api_delay now : ℤ) (req : Nat → ApiOutcome) (s : SummarizerState) :
    CallResult × SummarizerState × CallTrace :=
  match check_circuit_breaker now s with
  | (true, s') => (.circuitOpen, s', ⟨0, [], 0⟩)
  | (false, s') =>
    let adaptive := api_delay + 10 * (s'.consecutive_failures : ℤ)
    let since := now - s'.last_api_call_time
    let pwait := if since < adaptive then adaptive - since else 0
    match api_retry_loop req 0 6 with
    | (some (.ok t), n, ws) =>
        (.ok t,
         { s' with consecutive_failures := 0, last_failure_time := none,
                   last_api_call_time := now },
         ⟨n, ws, pwait⟩)
    | (some (.error msg), n, ws) => (.error msg, s', ⟨n, ws, pwait⟩)
    | (none, n, ws) =>
        (.overloaded,
         { s' with consecutive_failures := s'.consecutive_failures + 1,
                   last_failure_time := some now },
         ⟨n, ws, pwait⟩)

/-! ### Local idempotency ledger (`Database` / `ProcessedVideo`,
src/src/database/models.py) -/

/-- One row of the `processed_videos` table.  Note that the table has NO
`transcript` column: the columns are exactly those declared on the
`ProcessedVideo` SQLAlchemy model, so a `transcript` key passed to
`add_processed_video` is silently dropped (the insert path only reads the
declared keys, and the update path guards each key with `hasattr`). -/
structure ProcessedVideo where
  video_id : String
  title : String
  channel_title : Option String
  published_at : Option String
  transcript_extracted : Bool
  summary_generated : Bool
  notion_page_created : Bool
  notion_page_id : Option String
  error_message : Option String
deriving DecidableEq

/-- The local store contents (rows of `processed_videos`). -/
abbrev LocalDb := List ProcessedVideo

/-- `Database.get_processed_video`: first row with the given id. -/
def db_get (db : LocalDb) (vid : String) : Option ProcessedVideo :=
  db.find? (fun v => v.video_id == vid)

/-- `Database.is_video_processed`: a row exists and its
`notion_page_created` flag is set. -/
def is_video_processed (db : LocalDb) (vid : String) : Bool :=
  match db_get db vid with
  | some v => v.notion_page_created
  | none => false

/-- `Database.add_processed_video` specialised to the dictionary built in
`VideoProcessor._get_transcript`:
`{video_id, title: "Processing...", published_at: placeholder,
transcript_extracted: True, transcript: <text>}`.  The `transcript` value
(the `transcriptText` argument) is dropped on both paths because
`ProcessedVideo` has no such column; on the update path only the keys
present in the dictionary and on the model are overwritten. -/
def cache_transcript_record (db : LocalDb) (vid transcriptText : String) : LocalDb :=
  match db_get db vid with
  | some _ =>
      db.map (fun v =>
        if v.video_id == vid then
          { v with title := "Processing...",
                   published_at := some "2024-01-01T00:00:00Z",
                   transcript_extracted := true }
        else v)
  | none =>
      db ++ [{ video_id := vid, title := "Processing...",
               channel_title := none,
               published_at := some "2024-01-01T00:00:00Z",
               transcript_extracted := true, summary_generated := false,
               notion_page_created := false, notion_page_id := none,
               error_message := none }]

/-- `Database.update_video_status(video_id, summary_generated=...,
notion_page_created=...)` as called by `_finalize_processing`; a no-op when
no row with the id exists. -/
def db_update_summary_flags (db : LocalDb) (vid : String) (summaryGen notionCreated : Bool) :
    LocalDb :=
  db.map (fun v =>
    if v.video_id == vid then
      { v with summary_generated := summaryGen, notion_page_created := notionCreated }
    else v)

/-- `Database.update_video_status(video_id, error_message=...)` as called by
`VideoProcessor._handle_error`; a no-op when no row with the id exists. -/
def db_update_error (db : LocalDb) (vid msg : String) : LocalDb :=
  db.map (fun v =>
    if v.video_id == vid then { v with error_message := some msg } else v)

/-! ### Content fetch gated by the rate governor
(`TranscriptExtractor`, src/src/transcript/extractor.py) -/

/-- The rate-limiter configuration of `TranscriptExtractor.__init__`:
50/hour, 200/day, 3-second minimum delay, backoff multiplier 2. -/
def extractor_params : RateLimiterParams := ⟨50, 200, 3, 2⟩

/-- `TranscriptExtractor.extract_transcript`.  The YouTube transcript API is
an external collaborator, modelled by `avail` — the transcript text it
would return (`none` when unavailable or erroring).  `get_status` cleans the
persisted window first; `wait_if_needed` then either admits (possibly after
sleeping) or skips; an admitted request invokes the API exactly once and its
outcome is recorded via `record_request` in the `finally` block (success
only when a transcript was returned).  Returns the transcript, the updated
rate-limiter data, and the number of Content Source invocations. -/
def extract_transcript (now : ℤ) (rl : RateLimiterData) (avail : Option String) :
    Option String × RateLimiterData × Nat :=
  let rl := clean_old_requests now rl
  match wait_if_needed extractor_params now rl with
  | (.skip, rl') => (none, rl', 0)
  | (.proceed _, rl') =>
    match avail with
    | some t => (some t, record_request now true rl', 1)
    | none => (none, record_request now false rl', 1)

/-! ### Python exceptions crossing component boundaries -/

/-- The exceptions the item processor catches: an `AttributeError` from
calling a method that does not exist, or a generic `Exception(msg)`. -/
inductive PyError where
  | attributeError (msg : String)
  | generic (msg : String)
deriving DecidableEq

/-- Python `str(e)` for the modelled exceptions. -/
def py_error_message : PyError → String
  | .attributeError msg => msg
  | .generic msg => msg

instance {ε α : Type} [DecidableEq ε] [DecidableEq α] : DecidableEq (Except ε α) :=
  fun a b =>
    match a, b with
    | .ok x, .ok y =>
        if h : x = y then isTrue (by rw [h]) else isFalse (by intro hc; cases hc; exact h rfl)
    | .error x, .error y =>
        if h : x = y then isTrue (by rw [h]) else isFalse (by intro hc; cases hc; exact h rfl)
    | .ok _, .error _ => isFalse (by intro hc; cases hc)
    | .error _, .ok _ => isFalse (by intro hc; cases hc)

/-- Message of the `AttributeError` raised by
`self.db.get_processed_video_dict(video_id)` in
`VideoProcessor._get_transcript`: the `Database` class of
src/src/database/models.py defines `get_processed_video` /
`is_video_processed` / `add_processed_video` / `update_video_status` /
`get_all_processed_videos` / `get_failed_videos` / `close` — but no
`get_processed_video_dict`, so the attribute lookup raises. -/
def missing_method_message : String :=
  "Database object has no attribute get_processed_video_dict"

/-- `VideoProcessor._get_transcript`.  With the force flag unset it first
consults the local ledger (`is_video_processed`); when the ledger marks the
item processed it calls `self.db.get_processed_video_dict(video_id)` — a
method `Database` does not define — so that branch raises `AttributeError`
and can never return a cached transcript.  Otherwise it runs the
rate-governed extraction and, on success, caches a row (whose `transcript`
key the ledger drops).  Returns the outcome, the ledger, the rate-limiter
data, and the number of Content Source invocations. -/
def get_transcript (force : Bool) (now : ℤ) (vid : String)
    (db : LocalDb) (rl : RateLimiterData) (avail : Option String) :
    Except PyError (Option String) × LocalDb × RateLimiterData × Nat :=
  if !force && is_video_processed db vid then
    (.error (.attributeError missing_method_message), db, rl, 0)
  else
    let (tr, rl', calls) := extract_transcript now rl avail
    match tr with
    | some t => (.ok (some t), cache_transcript_record db vid t, rl', calls)
    | none => (.ok none, db, rl', calls)

/-! ### Video metadata (`PlaylistFetcher.get_video_details`,
src/src/youtube/playlist_fetcher.py) -/

/-- The dictionary `get_video_details` returns (the fields consumed
downstream; `duration`, view/like counts, `channel_id` and `tags` are also
present but never read by the pipeline).  NOTE: the dictionary has no
`video_url` key, so `_combine_parts`' `video_metadata.get('video_url', '#')`
always falls back to `"#"`. -/
structure VideoInfo where
  video_id : String
  title : String
  description : String
  published_at : String
  channel_title : String
deriving DecidableEq

/-! ### Summary assembly (`MultiPartSummarizer`) -/

/-- Is this a line `_clean_part_content` discards?  (`##` headers mentioning
Strategic/Analysis/Implementation/Takeaways, `===` rules, and lines starting
with `Part`.) -/
def header_like (line : String) : Bool :=
  (str_starts line "##" &&
    (str_contains line "Strategic" || str_contains line "Analysis" ||
     str_contains line "Implementation" || str_contains line "Takeaways")) ||
  str_starts line "===" || str_starts line "Part"

/-- `MultiPartSummarizer._clean_part_content`: drop header-like lines, glue
the rest back together, strip, and prepend the expected header. -/
def clean_part_content (content expected_header : String) : String :=
  let lines := (split_on_char '\n' content.data).map (fun l => (⟨l⟩ : String))
  let cleaned := lines.filter (fun l => !header_like l)
  expected_header ++ "\n\n" ++ (⟨trim_chars (String.intercalate "\n" cleaned).data⟩ : String)

/-- `MultiPartSummarizer._combine_parts`.  `genTime` stands for the
`datetime.now().strftime(...)` stamp of the footer.  The source URL is the
`video_url` fallback `"#"` (see `VideoInfo`). -/
def combine_parts (p1 p2 p3 : String) (meta : VideoInfo) (genTime : String) : String :=
  let url := "#"
  let header := "# " ++ meta.title ++ "\n\n<aside>\n📺 **Channel:** " ++ meta.channel_title
    ++ "  \n📅 **Published:** " ++ meta.published_at ++ "  \n🔗 **YouTube:** " ++ url
    ++ "\n</aside>\n\n---\n\n"
  let part1 := clean_part_content p1 "## 🎯 Strategic Overview & Why This Matters"
  let part2 := clean_part_content p2 "## 📊 Detailed Analysis & Key Takeaways"
  let part3 := clean_part_content p3 "## 🚀 Implementation Guide & Resources"
  header ++ part1 ++ "\n\n" ++ part2 ++ "\n\n" ++ part3
    ++ ("\n\n---\n\n**📖 Source:** [" ++ meta.title ++ "](" ++ url
        ++ ")  \n**🤖 Generated:** " ++ genTime ++ " using Claude 3 Opus")

/-- `MultiPartSummarizer.generate_comprehensive_summary`: three sequential
`_make_api_call`s (Parts 1–3), combined by `_combine_parts` and saved as a
markdown file under `summaries/` (a local side effect not tracked here).
`req part attempt` is the outcome of the given attempt of the given part's
underlying request.  Returns the summary or the propagated exception, the
summarizer state, and the total number of Generation Service request
attempts made. -/
def generate_comprehensive_summary (api_delay now : ℤ) (meta : VideoInfo) (genTime : String)
    (req : Nat → Nat → ApiOutcome) (s : SummarizerState) :
    Except PyError String × SummarizerState × Nat :=
  match make_api_call api_delay now (req 0) s with
  | (.ok p1, s1, t1) =>
    match make_api_call api_delay now (req 1) s1 with
    | (.ok p2, s2, t2) =>
      match make_api_call api_delay now (req 2) s2 with
      | (.ok p3, s3, t3) =>
          (.ok (combine_parts p1 p2 p3 meta genTime), s3,
           t1.attempts + t2.attempts + t3.attempts)
      | (.circuitOpen, s3, t3) =>
          (.error (.generic "Circuit breaker open - API consistently overloaded"), s3,
           t1.attempts + t2.attempts + t3.attempts)
      | (.overloaded, s3, t3) =>
          (.error (.generic "Claude API severely overloaded after 6 attempts - try again later"),
           s3, t1.attempts + t2.attempts + t3.attempts)
      | (.error msg, s3, t3) =>
          (.error (.generic msg), s3, t1.attempts + t2.attempts + t3.attempts)
    | (.circuitOpen, s2, t2) =>
        (.error (.generic "Circuit breaker open - API consistently overloaded"), s2,
         t1.attempts + t2.attempts)
    | (.overloaded, s2, t2) =>
        (.error (.generic "Claude API severely overloaded after 6 attempts - try again later"),
         s2, t1.attempts + t2.attempts)
    | (.error msg, s2, t2) => (.error (.generic msg), s2, t1.attempts + t2.attempts)
  | (.circuitOpen, s1, t1) =>
      (.error (.generic "Circuit breaker open - API consistently overloaded"), s1, t1.attempts)
  | (.overloaded, s1, t1) =>
      (.error (.generic "Claude API severely overloaded after 6 attempts - try again later"),
       s1, t1.attempts)
  | (.error msg, s1, t1) => (.error (.generic msg), s1, t1.attempts)

/-! ### Fallback artifact writer (`MarkdownBackup`,
src/src/backup/markdown_backup.py) -/

/-- The YouTube URL `_create_markdown_content` builds from the video id. -/
def youtube_url_of (vid : String) : String := "https://www.youtube.com/watch?v=" ++ vid

/-- The fixed part of the backup template before the summary: title header
plus the Video Information block (id, channel, formatted date, source link,
backup timestamp). -/
def backup_info_block (info : VideoInfo) (nowStr formattedDate : String) : String :=
  "# " ++ info.title ++ "\n\n## Video Information\n\n- **Video ID:** " ++ info.video_id
    ++ "\n- **Channel:** " ++ info.channel_title
    ++ "\n- **Published:** " ++ formattedDate
    ++ "\n- **YouTube URL:** [" ++ youtube_url_of info.video_id ++ "]("
    ++ youtube_url_of info.video_id ++ ")\n- **Backup Created:** " ++ nowStr
    ++ "\n\n## Summary\n\n"

/-- The part of the backup template after the summary: truncated
description, optional transcript section, and the footer. -/
def backup_tail_block (info : VideoInfo) (transcript : Option String) : String :=
  "\n\n## Video Description\n\n"
    ++ py_take info.description 500
    ++ (if 500 < py_len info.description then "..." else "") ++ "\n\n"
    ++ (match transcript with
        | some t => "## Transcript\n\n" ++ t ++ "\n\n"
        | none => "")
    ++ "---\n\n*This markdown file was created as a backup when the Notion integration failed.*\n"

/-- `MarkdownBackup._create_markdown_content`.  `nowStr` stands for the
`datetime.now()` stamp and `formattedDate` for the externally-formatted
published date (the `datetime.fromisoformat`/`strftime` block, an external
collaborator; on failure the raw value is used). -/
def create_markdown_content (info : VideoInfo) (summary : String) (transcript : Option String)
    (nowStr formattedDate : String) : String :=
  backup_info_block info nowStr formattedDate ++ (summary ++ backup_tail_block info transcript)

/-- `VideoProcessor._create_summary_page`: try the remote summary-page
write; when it fails (falsy response or exception, `remoteOk = false`),
fall back to `MarkdownBackup.create_backup` and return `False`; when the
backup itself raises (`backupRaises = true`) the exception is caught and
logged and `False` is returned all the same.  Returns the Notion-success
flag and the fallback artifact content written, if any. -/
def create_summary_page_step (remoteOk backupRaises : Bool) (info : VideoInfo)
    (summary transcript nowStr formattedDate : String) : Bool × Option String :=
  if remoteOk then (true, none)
  else if backupRaises then (false, none)
  else (false, some (create_markdown_content info summary (some transcript) nowStr formattedDate))

/-! ### Item processor (`VideoProcessor.process_single_video`,
src/main_database.py) -/

/-- One `update_video_status` call against the remote tracking store. -/
structure StatusWrite where
  page_id : String
  status : String
  error_message : Option String
deriving DecidableEq

/-- The work-item record handed to `process_single_video` (as produced by
discovery): page id, video id, title and the remote status it had when
discovered.  `process_single_video` reads `page_id`, `video_id` and
`title` only — it never inspects `status`. -/
structure VideoRecord where
  page_id : String
  video_id : String
  title : String
  status : Option String
deriving DecidableEq

/-- Oracle outcomes of the external collaborators for one
`process_single_video` invocation. -/
structure PipelineEnv where
  /-- `youtube_fetcher.get_video_details` result (`none` = not found). -/
  details : Option VideoInfo
  /-- Transcript the YouTube transcript API would return if invoked. -/
  transcriptAvail : Option String
  /-- Generation Service outcome per (part, attempt). -/
  genReq : Nat → Nat → ApiOutcome
  /-- Truthiness of the `create_summary_page` response (false = the remote
  artifact write failed or raised). -/
  remoteWriteOk : Bool
  /-- Whether `MarkdownBackup.create_backup` raises. -/
  backupRaises : Bool
  /-- The `datetime.now()` rendering used in generated text. -/
  nowStr : String
  /-- The externally-formatted published date used by the backup. -/
  fmtDate : String

/-- Mutable state threaded through one processor invocation, plus counters
for the two expensive external services. -/
structure PipelineState where
  db : LocalDb
  rl : RateLimiterData
  sz : SummarizerState
  /-- Remote tracking store status updates, in order. -/
  statusWrites : List StatusWrite
  /-- Content Source (YouTube transcript API) invocations. -/
  extractorCalls : Nat
  /-- Generation Service (`messages.create`) request attempts. -/
  generationCalls : Nat
  /-- Fallback artifacts written (their markdown content). -/
  backups : List String
deriving DecidableEq

/-- State of a freshly initialised processor over the given ledger and
rate-limiter data. -/
def init_state (db : LocalDb) (rl : RateLimiterData) : PipelineState :=
  ⟨db, rl, initial_summarizer_state, [], 0, 0, []⟩

/-- `VideoProcessor._handle_error`: write status "Error" with the message to
the remote store, record the message in the local ledger, return `False`. -/
def handle_error (pageId vid msg : String) (st : PipelineState) : Bool × PipelineState :=
  (false,
   { st with
     statusWrites := st.statusWrites ++ [⟨pageId, "Error", some msg⟩],
     db := db_update_error st.db vid msg })

/-- `VideoProcessor.process_single_video`.  Sets the remote status to
"Processing" unconditionally (no status check happens first), fetches
metadata, obtains the transcript (cache branch or rate-governed fetch),
always generates the summary, writes the summary page with markdown
fallback, and finalises with status "Completed" plus
`summary_generated=True` / `notion_page_created=success` in the ledger.
Any exception is converted by `_handle_error` into a terminal "Error". -/
def process_single_video (now api_delay : ℤ) (env : PipelineEnv)
    (rec : VideoRecord) (force : Bool) (st : PipelineState) : Bool × PipelineState :=
  let st := { st with statusWrites := st.statusWrites ++ [⟨rec.page_id, "Processing", none⟩] }
  match env.details with
  | none => handle_error rec.page_id rec.video_id "Could not fetch video details" st
  | some info =>
    let (tr, db', rl', calls) :=
      get_transcript force now rec.video_id st.db st.rl env.transcriptAvail
    let st := { st with db := db', rl := rl', extractorCalls := st.extractorCalls + calls }
    match tr with
    | .error e => handle_error rec.page_id rec.video_id (py_error_message e) st
    | .ok none => handle_error rec.page_id rec.video_id "No transcript available" st
    | .ok (some transcript) =>
      let (gen, sz', gcalls) :=
        generate_comprehensive_summary api_delay now info env.nowStr env.genReq st.sz
      let st := { st with sz := sz', generationCalls := st.generationCalls + gcalls }
      match gen with
      | .error e => handle_error rec.page_id rec.video_id (py_error_message e) st
      | .ok summary =>
        let (success, artifact) :=
          create_summary_page_step env.remoteWriteOk env.backupRaises info summary
            transcript env.nowStr env.fmtDate
        let st := { st with backups := st.backups ++ artifact.toList }
        let st :=
          { st with
            statusWrites := st.statusWrites ++ [⟨rec.page_id, "Completed", none⟩],
            db := db_update_summary_flags st.db rec.video_id true success }
        (true, st)

/-! ### Remote tracking store discovery (`NotionDatabaseClient`,
src/src/notion/database_client.py) -/

/-- A page of the remote tracking database: its id, the "Video URL"
property (when of url type and non-empty) and the "Status" select value
(`none` = empty). -/
structure NotionPage where
  page_id : String
  video_url : Option String
  title : String
  status : Option String
deriving DecidableEq

/-- The server-side filter of the `get_unprocessed_videos` query:
Status `does_not_equal "Completed"` OR Status `is_empty`. -/
def unprocessed_query_filter (status : Option String) : Bool :=
  match status with
  | none => true
  | some s => s != "Completed"

/-- `NotionDatabaseClient.is_playlist_url`: the URL mentions a `list=`
parameter and a YouTube host. -/
def is_playlist_url (url : String) : Bool :=
  str_contains url "list=" && (str_contains url "youtube.com" || str_contains url "youtu.be")

/-- Is `c` in the regex class `[a-zA-Z0-9_-]` of the video-id patterns? -/
def yt_id_char (c : Char) : Bool := c.isAlphanum || c == '_' || c == '-'

/-- The 11 id characters following `marker` in `url`, when present and
well-formed (the `([a-zA-Z0-9_-]{11})` capture of the source's regexes). -/
def id_after (url marker : String) : Option String :=
  match after_first marker.data url.data with
  | some rest =>
      let cand := rest.take 11
      if cand.length == 11 && cand.all yt_id_char then some (⟨cand⟩ : String) else none
  | none => none

/-- `NotionDatabaseClient.extract_video_id_from_url`: the four regex
patterns tried in order — watch URLs / youtu.be short links, embed URLs,
/v/ URLs, and a bare 11-character id. -/
def extract_video_id_from_url (url : String) : Option String :=
  if url == "" then none
  else
    (id_after url "youtube.com/watch?v=").orElse fun _ =>
      (id_after url "youtu.be/").orElse fun _ =>
        (id_after url "youtube.com/embed/").orElse fun _ =>
          (id_after url "youtube.com/v/").orElse fun _ =>
            if url.data.length == 11 && url.data.all yt_id_char then some url else none

/-- A work-item record as produced by discovery. -/
structure DiscoveredVideo where
  page_id : String
  video_url : String
  video_id : String
  title : String
  status : Option String
deriving DecidableEq

/-- The per-page body of the `get_unprocessed_videos(expand_playlists=False)`
loop: pages without a URL are skipped, playlist URLs are skipped (collected
separately), pages whose URL yields no video id are skipped; the rest become
work-item records carrying the page's status. -/
def parse_video_page (p : NotionPage) : Option DiscoveredVideo :=
  match p.video_url with
  | none => none
  | some url =>
    if is_playlist_url url then none
    else
      match extract_video_id_from_url url with
      | none => none
      | some vid => some ⟨p.page_id, url, vid, p.title, p.status⟩

/-- `NotionDatabaseClient.get_unprocessed_videos(expand_playlists=False)`.
`queryResult` is the remote database query: `.ok pages` returns the pages
of the store matching the server-side filter, `.error` models the query (or
any part of the body) raising — the method catches every exception and
returns the empty list. -/
def get_unprocessed_videos (queryResult : Except String (List NotionPage)) :
    List DiscoveredVideo :=
  match queryResult with
  | .error _ => []
  | .ok pages =>
      (pages.filter (fun p => unprocessed_query_filter p.status)).filterMap parse_video_page

/-- `NotionDatabaseClient.get_processed_videos`: pages whose Status equals
"Completed", parsed by `_extract_video_info` (URL present, id extractable;
unlike discovery, playlist URLs are not specially skipped, but a playlist
URL yields no id unless it embeds a watch-style id). -/
def get_processed_videos (store : List NotionPage) : List DiscoveredVideo :=
  (store.filter (fun p => p.status == some "Completed")).filterMap (fun p =>
    match p.video_url with
    | none => none
    | some url =>
      match extract_video_id_from_url url with
      | none => none
      | some vid => some ⟨p.page_id, url, vid, p.title, p.status⟩)

/-! ### Container (playlist) expansion (`PlaylistHandler.add_videos_to_notion`
and `VideoProcessor._check_and_expand_playlists`) -/

/-- One playlist member as fetched from the YouTube playlist API. -/
structure PlaylistVideo where
  video_id : String
  title : String
deriving DecidableEq

/-- `NotionDatabaseClient.update_video_status` against a modelled store:
sets the Status select of the page. -/
def update_page_status (store : List NotionPage) (pageId newStatus : String) :
    List NotionPage :=
  store.map (fun p =>
    if p.page_id == pageId then { p with status := some newStatus } else p)

/-- `PlaylistHandler.add_videos_to_notion`: collect the known ids once —
unprocessed (non-playlist, non-Completed) plus processed (Completed) — then
create a page with Status "New" (page id assigned by the remote store,
modelled as derived from the video id) for each member id not already
known.
Returns (added, skipped, pages created). -/
def add_videos_to_notion (store : List NotionPage) (videos : List PlaylistVideo) :
    Nat × Nat × List NotionPage :=
  let existing_unproc := (get_unprocessed_videos (.ok store)).map (·.video_id)
  let existing_proc := (get_processed_videos store).map (·.video_id)
  let all_existing := existing_unproc ++ existing_proc
  videos.foldl
    (fun (acc : Nat × Nat × List NotionPage) v =>
      let (added, skipped, created) := acc
      if all_existing.contains v.video_id then (added, skipped + 1, created)
      else
        (added + 1, skipped,
         created ++ [⟨"page-" ++ v.video_id, some (youtube_url_of v.video_id),
                      v.title, some "New"⟩]))
    (0, 0, [])

/-- The server-side filter of the `_check_and_expand_playlists` query:
"Video URL" contains "list=" AND (Status ≠ "Playlist Expanded" OR Status
empty). -/
def playlist_scan_filter (p : NotionPage) : Bool :=
  (match p.video_url with
   | some url => str_contains url "list="
   | none => false) &&
  p.status != some "Playlist Expanded"

/-- `VideoProcessor._check_and_expand_playlists`.  The query selects
unexpanded playlist pages once; each selected entry (url-typed and
`is_playlist_url`) is expanded via `PlaylistHandler.process_playlist`:
`members url` is the member list the YouTube API returns (`.error` = the
fetch failed, `process_playlist` reports failure).  Large member lists are
capped at 15 per run.  On success the members are de-duplicated and added
and the container page is marked "Playlist Expanded"; on failure it is
marked "Error".  Returns the updated store and the number of successful
expansions (Playlist-Expanded markings) performed this scan. -/
def check_and_expand_playlists (members : String → Except String (List PlaylistVideo))
    (store : List NotionPage) : List NotionPage × Nat :=
  let entries := store.filter (fun p =>
    playlist_scan_filter p &&
    (match p.video_url with
     | some url => is_playlist_url url
     | none => false))
  entries.foldl
    (fun (acc : List NotionPage × Nat) entry =>
      let (st, cnt) := acc
      match entry.video_url with
      | some url =>
        match members url with
        | .ok vids =>
            let vids := vids.take 15
            let (_, _, created) := add_videos_to_notion st vids
            (update_page_status (st ++ created) entry.page_id "Playlist Expanded", cnt + 1)
        | .error _ => (update_page_status st entry.page_id "Error", cnt)
      | none => (st, cnt))
    (store, 0)

/-! ### Batch orchestrator (`VideoProcessor.check_and_process_videos`) -/

/-- The `stats` dictionary of the batch loop. -/
structure BatchStats where
  processed : Nat
  errors : Nat
  skipped : Nat
deriving DecidableEq

/-- The sequential per-video loop of `check_and_process_videos`.  The
source's `None → skipped` branch is unreachable — `process_single_video`
only ever returns `True` or `False` — so `skipped` never moves.  After an
item, when at least one error has occurred and items remain, the loop
breaks (fail-fast).  Inter-item sleeps are timing-only and not tracked. -/
def process_batch (now api_delay : ℤ) (envs : String → PipelineEnv) (force : Bool) :
    List DiscoveredVideo → PipelineState → BatchStats → PipelineState × BatchStats
  | [], st, stats => (st, stats)
  | v :: rest, st, stats =>
    let vrec : VideoRecord := ⟨v.page_id, v.video_id, v.title, v.status⟩
    let (ok, st') := process_single_video now api_delay (envs v.video_id) vrec force st
    let stats' :=
      if ok then { stats with processed := stats.processed + 1 }
      else { stats with errors := stats.errors + 1 }
    if 1 ≤ stats'.errors && decide (0 < rest.length) then (st', stats')
    else process_batch now api_delay envs force rest st' stats'

/-- The discovery-and-dispatch body of `check_and_process_videos` (after the
health check and the playlist-expansion pass): fetch unprocessed videos;
when none are found, log "No new videos found" and return having done
nothing (the Boolean result records that early return); otherwise cap the
batch at 15 items and process sequentially. -/
def check_and_process_videos (now api_delay : ℤ) (envs : String → PipelineEnv)
    (force : Bool) (queryResult : Except String (List NotionPage))
    (st : PipelineState) : PipelineState × BatchStats × Bool :=
  let vids := get_unprocessed_videos queryResult
  if vids.isEmpty then (st, ⟨0, 0, 0⟩, true)
  else
    let (st', stats) := process_batch now api_delay envs force (vids.take 15) st ⟨0, 0, 0⟩
    (st', stats, false)

/-! ### Helper lemmas about the string utilities -/

theorem starts_with_refl_append (pat post : List Char) :
    starts_with pat (pat ++ post) = true := by
  induction pat with
  | nil => simp [starts_with]
  | cons c cs ih => simp [starts_with, ih]

theorem starts_with_append_extend (pat s t : List Char)
    (h : starts_with pat s = true) : starts_with pat (s ++ t) = true := by
  induction pat generalizing s with
  | nil => simp [starts_with]
  | cons p ps ih =>
    cases s with
    | nil => simp [starts_with] at h
    | cons c cs =>
      simp only [starts_with, Bool.and_eq_true, beq_iff_eq] at h
      simp [starts_with, h.1, ih cs h.2]

theorem after_first_isSome_of_starts (pat s : List Char)
    (h : starts_with pat s = true) : (after_first pat s).isSome = true := by
  cases s with
  | nil =>
    cases pat with
    | nil => simp [after_first]
    | cons p ps => simp [starts_with] at h
  | cons c cs => simp [after_first, h]

theorem after_first_cons_mono (pat : List Char) (c : Char) (s : List Char)
    (h : (after_first pat s).isSome = true) :
    (after_first pat (c :: s)).isSome = true := by
  by_cases hs : starts_with pat (c :: s) = true
  · simp [after_first, hs]
  · simp [after_first, hs, h]

theorem after_first_prepend (pre pat s : List Char)
    (h : (after_first pat s).isSome = true) :
    (after_first pat (pre ++ s)).isSome = true := by
  induction pre with
  | nil => simpa using h
  | cons c cs ih => simpa using after_first_cons_mono pat c (cs ++ s) ih

theorem after_first_nil_pat (s : List Char) : (after_first [] s).isSome = true := by
  cases s with
  | nil => simp [after_first]
  | cons c cs => simp [after_first, starts_with]

theorem after_first_extend (pat s t : List Char)
    (h : (after_first pat s).isSome = true) :
    (after_first pat (s ++ t)).isSome = true := by
  induction s with
  | nil =>
    cases pat with
    | nil => simpa using after_first_nil_pat t
    | cons p ps => simp [after_first] at h
  | cons c cs ih =>
    by_cases hs : starts_with pat (c :: cs) = true
    · have hst : starts_with pat (c :: (cs ++ t)) = true := by
        have := starts_with_append_extend pat (c :: cs) t hs
        simpa using this
      simp [after_first, hst]
    · simp only [after_first, hs, Bool.false_eq_true, if_false] at h
      by_cases hs' : starts_with pat (c :: (cs ++ t)) = true
      · simp [after_first, hs']
      · simpa [after_first, hs'] using ih h

theorem after_first_append_self (pat post : List Char) :
    (after_first pat (pat ++ post)).isSome = true := by
  cases pat with
  | nil => simpa using after_first_nil_pat post
  | cons p ps =>
    exact after_first_isSome_of_starts _ _ (starts_with_refl_append (p :: ps) post)

theorem str_contains_mid (a x b : String) : str_contains (a ++ (x ++ b)) x = true := by
  unfold str_contains
  rw [String.data_append, String.data_append]
  exact after_first_prepend a.data x.data (x.data ++ b.data)
    (after_first_append_self x.data b.data)

theorem str_contains_append_right (s t x : String)
    (h : str_contains t x = true) : str_contains (s ++ t) x = true := by
  unfold str_contains at h ⊢
  rw [String.data_append]
  exact after_first_prepend s.data x.data t.data h

theorem str_contains_append_left (s t x : String)
    (h : str_contains s x = true) : str_contains (s ++ t) x = true := by
  unfold str_contains at h ⊢
  rw [String.data_append]
  exact after_first_extend x.data s.data t.data h

/-! ### Helper lemmas about the call wrapper -/

theorem clean_requests_last_time (now : ℤ) (d : RateLimiterData) :
    (clean_old_requests now d).last_request_time = d.last_request_time := rfl

theorem clean_requests_failures (now : ℤ) (d : RateLimiterData) :
    (clean_old_requests now d).consecutive_failures = d.consecutive_failures := rfl

theorem api_retry_loop_attempts_pos (req : Nat → ApiOutcome) (attempt remaining : Nat)
    (h : 0 < remaining) : 0 < (api_retry_loop req attempt remaining).2.1 := by
  cases remaining with
  | zero => omega
  | succ m =>
    cases hr : req attempt with
    | success t => simp [api_retry_loop, hr]
    | fatal msg => simp [api_retry_loop, hr]
    | transient =>
      rcases hl : api_retry_loop req (attempt + 1) m with ⟨out, n, ws⟩
      simp [api_retry_loop, hr, hl]

/-! ## Claims -/

/-- C7: the Rate Governor's admission check evaluates in this exact order:
(a) reject if now is before `backoff_until`; else (b) reject if the
day-window count is at or above the daily limit; else (c) reject if the
hour-window count is at or above the hourly limit; else (d) require
spacing since the last recorded call of at least
`baseDelay * backoffMultiplier ^ consecutiveFailures`, and when that
spacing is unmet, `wait_if_needed` waits exactly the missing amount when it
is within the 60-second policy ceiling and rejects otherwise. -/
theorem C7_admission_order (p : RateLimiterParams) (now : ℤ) (d : RateLimiterData) :
    (∀ b, d.backoff_until = some b → now < b →
        (can_make_request p now d).1 = .inBackoff (b - now)) ∧
    (backoff_check now d = none →
      (p.max_requests_per_day ≤ (clean_old_requests now d).requests.length →
        (can_make_request p now d).1 =
          .dailyLimit (clean_old_requests now d).requests.length) ∧
      ((clean_old_requests now d).requests.length < p.max_requests_per_day →
        p.max_requests_per_hour ≤ (hour_window now (clean_old_requests now d).requests).length →
        (can_make_request p now d).1 =
          .hourlyLimit (hour_window now (clean_old_requests now d).requests).length) ∧
      ((clean_old_requests now d).requests.length < p.max_requests_per_day →
        (hour_window now (clean_old_requests now d).requests).length < p.max_requests_per_hour →
        ∀ last, d.last_request_time = some last →
          (now - last < p.min_delay_seconds * p.backoff_multiplier ^ d.consecutive_failures →
            (can_make_request p now d).1 =
              .mustWait (p.min_delay_seconds * p.backoff_multiplier ^ d.consecutive_failures
                          - (now - last))) ∧
          (p.min_delay_seconds * p.backoff_multiplier ^ d.consecutive_failures ≤ now - last →
            (can_make_request p now d).1 = .allowed))) ∧
    (∀ w, (can_make_request p now d).1 = .mustWait w →
      (w ≤ 60 → (wait_if_needed p now d).1 = .proceed w) ∧
      (60 < w → (wait_if_needed p now d).1 = .skip)) := by
  refine ⟨?_, ?_, ?_⟩
  · intro b hb hlt
    simp [can_make_request, backoff_check, hb, hlt]
  · intro hbk
    refine ⟨?_, ?_, ?_⟩
    · intro hd
      simp [can_make_request, hbk, hd]
    · intro hd hh
      simp [can_make_request, hbk, Nat.not_le.2 hd, hh]
    · intro hd hh last hlast
      have hlast' : (clean_old_requests now d).last_request_time = some last := hlast
      constructor
      · intro hlt
        simp [can_make_request, hbk, Nat.not_le.2 hd, Nat.not_le.2 hh, hlast',
          clean_requests_failures, hlt]
      · intro hge
        simp [can_make_request, hbk, Nat.not_le.2 hd, Nat.not_le.2 hh, hlast',
          clean_requests_failures, not_lt.2 hge]
  · intro w hw
    rcases hcq : can_make_request p now d with ⟨dec, d'⟩
    rw [hcq] at hw
    simp only at hw
    subst hw
    constructor
    · intro hle
      simp [wait_if_needed, hcq, not_lt.2 hle]
    · intro hgt
      simp [wait_if_needed, hcq, hgt]

/-- Witness for C7 at concrete inputs: one instance per admission branch
(backoff rejection, daily rejection, hourly rejection, unmet spacing with
its wait, satisfied spacing). -/
theorem C7_admission_order_witness :
    (can_make_request ⟨1, 2, 3, 2⟩ 50 ⟨[], none, 0, some 100⟩).1 = .inBackoff 50 ∧
    (can_make_request ⟨5, 2, 3, 2⟩ 20 ⟨[0, 10], some 10, 0, none⟩).1 = .dailyLimit 2 ∧
    (can_make_request ⟨1, 5, 3, 2⟩ 10 ⟨[0], some 0, 0, none⟩).1 = .hourlyLimit 1 ∧
    (can_make_request ⟨5, 5, 3, 2⟩ 1 ⟨[0], some 0, 0, none⟩).1 = .mustWait 2 ∧
    (wait_if_needed ⟨5, 5, 3, 2⟩ 1 ⟨[0], some 0, 0, none⟩).1 = .proceed 2 ∧
    (can_make_request ⟨5, 5, 3, 2⟩ 4 ⟨[0], some 0, 0, none⟩).1 = .allowed := by
  refine ⟨?_, ?_, ?_, ?_, ?_, ?_⟩
  · have h := (C7_admission_order ⟨1, 2, 3, 2⟩ 50 ⟨[], none, 0, some 100⟩).1 100 rfl
      (by norm_num)
    norm_num at h
    exact h
  · have h := ((C7_admission_order ⟨5, 2, 3, 2⟩ 20 ⟨[0, 10], some 10, 0, none⟩).2.1
      (by decide)).1 (by decide)
    simpa using h
  · have h := ((C7_admission_order ⟨1, 5, 3, 2⟩ 10 ⟨[0], some 0, 0, none⟩).2.1
      (by decide)).2.1 (by decide) (by decide)
    simpa using h
  · have h := (((C7_admission_order ⟨5, 5, 3, 2⟩ 1 ⟨[0], some 0, 0, none⟩).2.1
      (by decide)).2.2 (by decide) (by decide) 0 rfl).1 (by norm_num)
    norm_num at h
    exact h
  · have h := ((C7_admission_order ⟨5, 5, 3, 2⟩ 1 ⟨[0], some 0, 0, none⟩).2.2 2
      (by decide)).1 (by norm_num)
    exact h
  · exact (((C7_admission_order ⟨5, 5, 3, 2⟩ 4 ⟨[0], some 0, 0, none⟩).2.1
      (by decide)).2.2 (by decide) (by decide) 0 rfl).2 (by norm_num)

/-- C5: once the breaker holds at least `openThreshold` (3) consecutive
exhaustion failures, a call made while the elapsed time since the last
failure is below the 5-minute cooldown raises immediately — zero request
attempts, zero waits — with the breaker state untouched; a call made once
the cooldown has elapsed behaves exactly as a call on the reset (closed)
breaker and makes at least one request attempt. -/
theorem C5_circuit_breaker_short_circuit (api_delay now lf : ℤ)
    (req : Nat → ApiOutcome) (s : SummarizerState)
    (hf : circuit_breaker_threshold ≤ s.consecutive_failures)
    (hl : s.last_failure_time = some lf) :
    (now - lf < circuit_breaker_timeout →
        make_api_call api_delay now req s = (.circuitOpen, s, ⟨0, [], 0⟩)) ∧
    (circuit_breaker_timeout ≤ now - lf →
        make_api_call api_delay now req s =
          make_api_call api_delay now req
            { s with consecutive_failures := 0, last_failure_time := none } ∧
        1 ≤ (make_api_call api_delay now req s).2.2.attempts) := by
  constructor
  · intro hcool
    simp [make_api_call, check_circuit_breaker, hf, hl, hcool]
  · intro hcool
    have hck : check_circuit_breaker now s =
        (false, { s with consecutive_failures := 0, last_failure_time := none }) := by
      simp [check_circuit_breaker, hf, hl, not_lt.2 hcool]
    have hck' : check_circuit_breaker now
        { s with consecutive_failures := 0, last_failure_time := none } =
        (false, { s with consecutive_failures := 0, last_failure_time := none }) := by
      simp [check_circuit_breaker, circuit_breaker_threshold]
    constructor
    · simp [make_api_call, hck, hck']
    · have hpos := api_retry_loop_attempts_pos req 0 6 (by norm_num)
      rcases hloop : api_retry_loop req 0 6 with ⟨out, n, ws⟩
      rw [hloop] at hpos
      have hn : 0 < n := by simpa using hpos
      rcases out with _ | r
      · simp [make_api_call, hck, hloop]
        omega
      · rcases r with t | msg <;>
          · simp [make_api_call, hck, hloop]
            omega

/-- Witness for C5: a breaker with 3 consecutive failures recorded at time 0
short-circuits a call at time 100 (inside the 300-second cooldown) with zero
attempts; a call at time 400 (cooldown elapsed) makes an attempt. -/
theorem C5_circuit_breaker_short_circuit_witness :
    make_api_call 10 100 (fun _ => .transient) ⟨3, some 0, 0⟩ =
      (.circuitOpen, ⟨3, some 0, 0⟩, ⟨0, [], 0⟩) ∧
    1 ≤ (make_api_call 10 400 (fun _ => .transient) ⟨3, some 0, 0⟩).2.2.attempts :=
  ⟨(C5_circuit_breaker_short_circuit 10 100 0 (fun _ => .transient) ⟨3, some 0, 0⟩
      (by decide) rfl).1 (by decide),
   ((C5_circuit_breaker_short_circuit 10 400 0 (fun _ => .transient) ⟨3, some 0, 0⟩
      (by decide) rfl).2 (by decide)).2⟩

/-- C6: from a closed breaker, a call whose underlying request fails
transiently on every attempt performs exactly 6 attempts with backoff waits
of exactly 30, 60, 120, 240, 480, 960 seconds and then raises the
overloaded exception with the breaker's failure count incremented to 1 and
the failure time recorded; a non-transient error on the first attempt
propagates immediately with no retry and no wait; any call that returns
successfully leaves the breaker reset (closed). -/
theorem C6_retry_backoff_policy (api_delay now : ℤ) (s : SummarizerState)
    (h0 : s.consecutive_failures = 0) :
    (∀ req : Nat → ApiOutcome, (∀ i, req i = .transient) →
        (make_api_call api_delay now req s).1 = .overloaded ∧
        (make_api_call api_delay now req s).2.2.retryWaits = [30, 60, 120, 240, 480, 960] ∧
        (make_api_call api_delay now req s).2.2.attempts = 6 ∧
        (make_api_call api_delay now req s).2.1.consecutive_failures = 1 ∧
        (make_api_call api_delay now req s).2.1.last_failure_time = some now) ∧
    (∀ (req : Nat → ApiOutcome) (msg : String), req 0 = .fatal msg →
        (make_api_call api_delay now req s).1 = .error msg ∧
        (make_api_call api_delay now req s).2.2.attempts = 1 ∧
        (make_api_call api_delay now req s).2.2.retryWaits = []) ∧
    (∀ (req : Nat → ApiOutcome) (t : String),
        (make_api_call api_delay now req s).1 = .ok t →
        (make_api_call api_delay now req s).2.1.consecutive_failures = 0 ∧
        (make_api_call api_delay now req s).2.1.last_failure_time = none) := by
  have hck : check_circuit_breaker now s = (false, s) := by
    simp [check_circuit_breaker, circuit_breaker_threshold, h0]
  refine ⟨?_, ?_, ?_⟩
  · intro req hreq
    have hloop : api_retry_loop req 0 6 =
        (none, 6, [30, 60, 120, 240, 480, 960]) := by
      simp [api_retry_loop, hreq]
    simp [make_api_call, hck, hloop, h0]
  · intro req msg hreq
    have hloop : api_retry_loop req 0 6 = (some (.error msg), 1, []) := by
      simp [api_retry_loop, hreq]
    simp [make_api_call, hck, hloop]
  · intro req t hok
    rcases hloop : api_retry_loop req 0 6 with ⟨out, n, ws⟩
    rcases out with _ | r
    · simp [make_api_call, hck, hloop] at hok
    · rcases r with u | msg
      · simp [make_api_call, hck, hloop] at hok
      · simp [make_api_call, hck, hloop]

/-- Witness for C6 at concrete inputs: an always-transient request from the
closed initial breaker yields the six exact waits and one recorded failure;
an immediately-fatal request makes a single attempt with no waits; a
first-try success leaves the breaker closed. -/
theorem C6_retry_backoff_policy_witness :
    (make_api_call 10 0 (fun _ => .transient) ⟨0, none, 0⟩).2.2.retryWaits =
      [30, 60, 120, 240, 480, 960] ∧
    (make_api_call 10 0 (fun _ => .transient) ⟨0, none, 0⟩).2.1.consecutive_failures = 1 ∧
    (make_api_call 10 0 (fun _ => .fatal "boom") ⟨0, none, 0⟩).1 = .error "boom" ∧
    (make_api_call 10 0 (fun _ => .fatal "boom") ⟨0, none, 0⟩).2.2.attempts = 1 ∧
    (make_api_call 10 0 (fun _ => .success "ok") ⟨0, none, 0⟩).2.1.consecutive_failures = 0 := by
  have h := C6_retry_backoff_policy 10 0 ⟨0, none, 0⟩ rfl
  refine ⟨(h.1 (fun _ => .transient) (fun _ => rfl)).2.1,
          (h.1 (fun _ => .transient) (fun _ => rfl)).2.2.2.1,
          (h.2.1 (fun _ => .fatal "boom") "boom" rfl).1,
          (h.2.1 (fun _ => .fatal "boom") "boom" rfl).2.1,
          (h.2.2 (fun _ => .success "ok") "ok" (by decide)).1⟩

theorem starts_with_self (l : List Char) : starts_with l l = true := by
  induction l with
  | nil => rfl
  | cons c cs ih => simp [starts_with, ih]

theorem str_contains_self (x : String) : str_contains x x = true := by
  unfold str_contains
  cases hx : x.data with
  | nil => simp [after_first]
  | cons c cs => exact after_first_isSome_of_starts _ _ (starts_with_self (c :: cs))

/-! ### Helper lemmas about the local ledger -/

theorem find_append_none {α : Type} (p : α → Bool) (l1 l2 : List α)
    (h : l1.find? p = none) : (l1 ++ l2).find? p = l2.find? p := by
  induction l1 with
  | nil => rfl
  | cons a l ih =>
    by_cases ha : p a = true
    · simp [List.find?_cons, ha] at h
    · simp only [List.find?_cons, ha, Bool.false_eq_true, if_false] at h
      simp only [List.cons_append, List.find?_cons, ha, Bool.false_eq_true, if_false]
      exact ih h

theorem find_map_id_comm (f : ProcessedVideo → ProcessedVideo)
    (hf : ∀ v, (f v).video_id = v.video_id) (db : LocalDb) (vid : String) :
    db_get (db.map f) vid = (db_get db vid).map f := by
  induction db with
  | nil => rfl
  | cons v l ih =>
    unfold db_get at ih ⊢
    by_cases hv : (v.video_id == vid) = true
    · have hfv : ((f v).video_id == vid) = true := by rw [hf]; exact hv
      simp [List.find?_cons, hv, hfv]
    · have hfv : ¬ (((f v).video_id == vid) = true) := by rw [hf]; exact hv
      simp only [List.map_cons, List.find?_cons, hv, hfv, Bool.false_eq_true, if_false]
      exact ih

theorem db_get_cache_isSome (db : LocalDb) (vid t : String) :
    ∃ u, db_get (cache_transcript_record db vid t) vid = some u := by
  unfold cache_transcript_record
  cases h : db_get db vid with
  | none =>
    refine ⟨⟨vid, "Processing...", none, some "2024-01-01T00:00:00Z",
             true, false, false, none, none⟩, ?_⟩
    unfold db_get at h ⊢
    rw [find_append_none _ _ _ h]
    simp [List.find?_cons]
  | some w =>
    have hf : ∀ v : ProcessedVideo,
        ((if v.video_id == vid then
            { v with title := "Processing...",
                     published_at := some "2024-01-01T00:00:00Z",
                     transcript_extracted := true }
          else v) : ProcessedVideo).video_id = v.video_id := by
      intro v
      by_cases hv : (v.video_id == vid) = true <;> simp [hv]
    rw [find_map_id_comm _ hf db vid, h]
    exact ⟨_, rfl⟩

theorem db_get_update_flags (db : LocalDb) (vid : String) (g n : Bool)
    (u : ProcessedVideo) (h : db_get db vid = some u) :
    db_get (db_update_summary_flags db vid g n) vid =
      some { u with summary_generated := g, notion_page_created := n } := by
  have hf : ∀ v : ProcessedVideo,
      ((if v.video_id == vid then
          { v with summary_generated := g, notion_page_created := n }
        else v) : ProcessedVideo).video_id = v.video_id := by
    intro v
    by_cases hv : (v.video_id == vid) = true <;> simp [hv]
  unfold db_update_summary_flags
  rw [find_map_id_comm _ hf db vid, h]
  have h' : db.find? (fun v => v.video_id == vid) = some u := h
  have hbeq := List.find?_some h'
  simp only at hbeq
  simp [hbeq]
  intro hne
  exact absurd (eq_of_beq hbeq) hne

/-! ### Concrete fixtures used by several claims -/

/-- Fixture: metadata of the sample item, as `get_video_details` returns it. -/
def sample_info : VideoInfo :=
  ⟨"dQw4w9WgXcQ", "Sample video", "desc", "2024-01-01T00:00:00Z", "Chan"⟩

/-- Fixture: a work item whose remote status is already "Completed". -/
def completed_record : VideoRecord :=
  ⟨"pg1", "dQw4w9WgXcQ", "Sample video", some "Completed"⟩

/-- Fixture: a freshly discovered work item with status "New". -/
def new_record : VideoRecord := ⟨"pg2", "dQw4w9WgXcQ", "Sample video", some "New"⟩

/-- Fixture: environment where every collaborator succeeds (metadata found,
transcript available, generation succeeds first try, remote page write
succeeds). -/
def env_all_ok : PipelineEnv :=
  ⟨some sample_info, some "some transcript words", fun _ _ => .success "part text",
   true, false, "2025-10-12 00:00:00", "January 1, 2024"⟩

/-- Fixture: fresh rate-limiter data (empty persisted cache). -/
def rl_empty : RateLimiterData := ⟨[], none, 0, none⟩

/-- Fixture: rate-limiter data whose day window already holds the extractor's
full daily budget of 200 requests. -/
def rl_exhausted : RateLimiterData := ⟨List.replicate 200 0, some 0, 0, none⟩

/-- Fixture: a local ledger row marking the sample item fully processed
(notion page created), as left behind by a completed earlier run. -/
def db_processed : LocalDb :=
  [⟨"dQw4w9WgXcQ", "Sample video", none, none, true, true, true, none, none⟩]

set_option maxRecDepth 80000 in
/-- C1 (counterexample): invoking `process_single_video` on a work item
whose remote status is already "Completed", with the force flag unset and
an empty local cache, is not a no-op: the processor never reads the item's
status — it immediately rewrites the remote status to "Processing" — and it
makes one Content Source call and three Generation Service calls, refuting
the claim of a status check followed by zero calls. -/
theorem C1_completed_item_not_noop :
    completed_record.status = some "Completed" ∧
    (process_single_video 0 10 env_all_ok completed_record false
        (init_state [] rl_empty)).2.extractorCalls = 1 ∧
    (process_single_video 0 10 env_all_ok completed_record false
        (init_state [] rl_empty)).2.generationCalls = 3 ∧
    (process_single_video 0 10 env_all_ok completed_record false
        (init_state [] rl_empty)).2.statusWrites.map StatusWrite.status =
      ["Processing", "Completed"] ∧
    ¬ ((process_single_video 0 10 env_all_ok completed_record false
          (init_state [] rl_empty)).2.extractorCalls = 0 ∧
       (process_single_video 0 10 env_all_ok completed_record false
          (init_state [] rl_empty)).2.generationCalls = 0) := by
  decide

/-- C1 (amended): `process_single_video` performs no status check and is not
a no-op on an already-Completed item; instead, re-processing of Completed
items is prevented one layer up, at work discovery: the discovery query
filters out items whose status is "Completed" (or keeps empty statuses), so
every record the batch loop can hand to the processor carries a
non-"Completed" status and the processor is never re-invoked on a Completed
item by the loop. -/
theorem C1_completed_items_never_rediscovered
    (q : Except String (List NotionPage)) (r : DiscoveredVideo)
    (hr : r ∈ get_unprocessed_videos q) : r.status ≠ some "Completed" := by
  rcases q with e | pages
  · simp [get_unprocessed_videos] at hr
  · simp only [get_unprocessed_videos] at hr
    rcases List.mem_filterMap.1 hr with ⟨p, hp, hparse⟩
    have hfilt := List.of_mem_filter hp
    have hstat : r.status = p.status := by
      unfold parse_video_page at hparse
      rcases hu : p.video_url with _ | url <;> rw [hu] at hparse <;> dsimp only at hparse
      · exact absurd hparse (by simp)
      · by_cases hpl : is_playlist_url url = true
        · rw [if_pos hpl] at hparse
          exact absurd hparse (by simp)
        · rw [if_neg hpl] at hparse
          rcases hx : extract_video_id_from_url url with _ | vid <;> rw [hx] at hparse
          · exact absurd hparse (by simp)
          · have h2 := Option.some.inj hparse
            rw [← h2]
    rw [hstat]
    unfold unprocessed_query_filter at hfilt
    rcases hs : p.status with _ | s
    · simp
    · rw [hs] at hfilt
      simp only [bne_iff_ne, ne_eq] at hfilt
      simp only [ne_eq, Option.some.injEq]
      exact hfilt

/-- Witness for C1 (amended) at a concrete store: a "New" page is
discovered and its status is not "Completed". -/
theorem C1_completed_items_never_rediscovered_witness :
    (⟨"b-page", "https://www.youtube.com/watch?v=BBBBBBBBBBB", "BBBBBBBBBBB", "B",
       some "New"⟩ : DiscoveredVideo) ∈
      get_unprocessed_videos (.ok
        [⟨"b-page", some "https://www.youtube.com/watch?v=BBBBBBBBBBB", "B", some "New"⟩]) ∧
    (⟨"b-page", "https://www.youtube.com/watch?v=BBBBBBBBBBB", "BBBBBBBBBBB", "B",
       some "New"⟩ : DiscoveredVideo).status ≠ some "Completed" :=
  ⟨by decide,
   C1_completed_items_never_rediscovered
     (.ok [⟨"b-page", some "https://www.youtube.com/watch?v=BBBBBBBBBBB", "B", some "New"⟩])
     ⟨"b-page", "https://www.youtube.com/watch?v=BBBBBBBBBBB", "BBBBBBBBBBB", "B", some "New"⟩
     (by decide)⟩

set_option maxRecDepth 80000 in
/-- C2 (evaluation at the failing input): processing an item while the rate
governor's daily budget is exhausted (200 recorded requests in the day
window) never invokes the Content Source — but the item's terminal status
is "Error" with message "No transcript available", not a distinct
RateLimited status; the invocation returns `False`, and the batch loop
therefore counts the item as an error (1 error, 0 skipped) and fail-fasts,
rather than treating it as deferred work — the source's `None → skipped`
branch is unreachable. -/
theorem C2_exhausted_budget_yields_error_status :
    (process_single_video 0 10 env_all_ok new_record false
        (init_state [] rl_exhausted)).2.extractorCalls = 0 ∧
    (process_single_video 0 10 env_all_ok new_record false
        (init_state [] rl_exhausted)).1 = false ∧
    (process_single_video 0 10 env_all_ok new_record false
        (init_state [] rl_exhausted)).2.statusWrites.map StatusWrite.status =
      ["Processing", "Error"] ∧
    (process_single_video 0 10 env_all_ok new_record false
        (init_state [] rl_exhausted)).2.statusWrites.getLast? =
      some ⟨"pg2", "Error", some "No transcript available"⟩ ∧
    (process_batch 0 10 (fun _ => env_all_ok) false
        [⟨"pg2", "https://www.youtube.com/watch?v=dQw4w9WgXcQ", "dQw4w9WgXcQ",
          "Sample video", some "New"⟩]
        (init_state [] rl_exhausted) ⟨0, 0, 0⟩).2 = ⟨0, 1, 0⟩ := by
  decide

set_option maxRecDepth 80000 in
/-- C3 (evaluation at the failing input): with the force flag unset and the
local IdempotencyRecord marking the item processed, `_get_transcript` does
consult the ledger before any fetch — but the cached-content lookup then
calls the nonexistent `Database.get_processed_video_dict`, raising
`AttributeError`; no fetch occurs, no cached content is returned, and the
processor converts the exception into terminal status "Error". -/
theorem C3_cached_branch_raises_attribute_error :
    is_video_processed db_processed "dQw4w9WgXcQ" = true ∧
    (get_transcript false 0 "dQw4w9WgXcQ" db_processed rl_empty
        (some "some transcript words")).1 =
      .error (.attributeError missing_method_message) ∧
    (get_transcript false 0 "dQw4w9WgXcQ" db_processed rl_empty
        (some "some transcript words")).2.2.2 = 0 ∧
    (process_single_video 0 10 env_all_ok new_record false
        (init_state db_processed rl_empty)).1 = false ∧
    (process_single_video 0 10 env_all_ok new_record false
        (init_state db_processed rl_empty)).2.statusWrites.getLast? =
      some ⟨"pg2", "Error", some missing_method_message⟩ := by
  decide

/-- Fixture: the container page for C8 (an unexpanded playlist URL). -/
def c8_container : NotionPage :=
  ⟨"pl-page", some "https://www.youtube.com/playlist?list=PLxyzabc", "My Playlist", none⟩

/-- Fixture: an existing pending page already holding member B's id. -/
def c8_pageB : NotionPage :=
  ⟨"b-page", some "https://www.youtube.com/watch?v=BBBBBBBBBBB", "B", some "New"⟩

/-- Fixture: the remote store before expansion: the container plus B. -/
def c8_store : List NotionPage := [c8_container, c8_pageB]

/-- Fixture: the container's members [A, B, C] as the playlist fetch
returns them. -/
def c8_members : List PlaylistVideo :=
  [⟨"AAAAAAAAAAA", "A"⟩, ⟨"BBBBBBBBBBB", "B"⟩, ⟨"CCCCCCCCCCC", "C"⟩]

/-- Fixture: the member-fetch oracle: the container's URL resolves to
[A, B, C]. -/
def c8_fetch : String → Except String (List PlaylistVideo) :=
  fun u =>
    if u == "https://www.youtube.com/playlist?list=PLxyzabc" then .ok c8_members
    else .error "no such playlist"

/-- Fixture: the store after one successful expansion scan. -/
def c8_store_after : List NotionPage :=
  [⟨"pl-page", some "https://www.youtube.com/playlist?list=PLxyzabc", "My Playlist",
     some "Playlist Expanded"⟩,
   c8_pageB,
   ⟨"page-AAAAAAAAAAA", some "https://www.youtube.com/watch?v=AAAAAAAAAAA", "A", some "New"⟩,
   ⟨"page-CCCCCCCCCCC", some "https://www.youtube.com/watch?v=CCCCCCCCCCC", "C", some "New"⟩]

set_option maxRecDepth 200000 in
/-- C8: expanding a container whose members are [A, B, C], where B's id is
already known and A, C are unseen, creates exactly 2 new pending ("New")
records, for A and C (B is skipped); the scan marks the container
"Playlist Expanded" once; and a repeated scan selects nothing — the store
is returned unchanged with zero expansions, so the container is never
re-expanded. -/
theorem C8_container_expansion_dedup :
    (add_videos_to_notion c8_store c8_members).1 = 2 ∧
    (add_videos_to_notion c8_store c8_members).2.1 = 1 ∧
    (add_videos_to_notion c8_store c8_members).2.2.map
        (fun p => (p.page_id, p.status)) =
      [("page-AAAAAAAAAAA", some "New"), ("page-CCCCCCCCCCC", some "New")] ∧
    check_and_expand_playlists c8_fetch c8_store = (c8_store_after, 1) ∧
    check_and_expand_playlists c8_fetch c8_store_after = (c8_store_after, 0) := by
  decide

/-- C10: when the remote tracking store query raises during work discovery,
`get_unprocessed_videos` returns the empty list rather than propagating, so
the outage is indistinguishable from an empty work queue at this interface;
the batch orchestrator then takes its "No new videos found" early return —
zero items processed, zero errors counted, and no status write or error
recorded anywhere (the processor state is returned untouched). -/
theorem C10_store_outage_looks_like_empty_queue (e : String) (now api_delay : ℤ)
    (envs : String → PipelineEnv) (force : Bool) (st : PipelineState) :
    get_unprocessed_videos (.error e) = get_unprocessed_videos (.ok []) ∧
    check_and_process_videos now api_delay envs force (.error e) st =
      check_and_process_videos now api_delay envs force (.ok []) st ∧
    check_and_process_videos now api_delay envs force (.error e) st =
      (st, ⟨0, 0, 0⟩, true) :=
  ⟨rfl, rfl, rfl⟩

/-- Fixture family for the remote-write-failure claims: metadata and
transcript available, each generation part succeeding on its first attempt
with the given part texts, remote summary-page write failing, and the
backup write raising iff `backupRaises`. -/
def remote_fail_env (info : VideoInfo) (t p1 p2 p3 nowStr fmtDate : String)
    (backupRaises : Bool) : PipelineEnv :=
  ⟨some info, some t,
   fun part _ => .success (if part = 0 then p1 else if part = 1 then p2 else p3),
   false, backupRaises, nowStr, fmtDate⟩

/-- C4: whenever the remote artifact write fails after a summary was
generated (metadata found, fetch admitted by the governor, transcript
available, generation succeeding) and the backup write itself succeeds, the
fallback writer persists exactly one local artifact, the item still reaches
terminal remote status "Completed", and the artifact contains the generated
summary together with the item's id, its title and the YouTube source
link. -/
theorem C4_remote_write_failure_falls_back_to_local_artifact
    (now api_delay : ℤ) (rec : VideoRecord) (info : VideoInfo)
    (db : LocalDb) (rl : RateLimiterData) (t p1 p2 p3 nowStr fmtDate : String)
    (hcache : is_video_processed db rec.video_id = false)
    (hallow : (can_make_request extractor_params now (clean_old_requests now rl)).1 =
      .allowed) :
    (process_single_video now api_delay
        (remote_fail_env info t p1 p2 p3 nowStr fmtDate false) rec false
        (init_state db rl)).1 = true ∧
    (process_single_video now api_delay
        (remote_fail_env info t p1 p2 p3 nowStr fmtDate false) rec false
        (init_state db rl)).2.statusWrites.map StatusWrite.status =
      ["Processing", "Completed"] ∧
    (process_single_video now api_delay
        (remote_fail_env info t p1 p2 p3 nowStr fmtDate false) rec false
        (init_state db rl)).2.backups =
      [create_markdown_content info (combine_parts p1 p2 p3 info nowStr) (some t)
         nowStr fmtDate] ∧
    str_contains
      (create_markdown_content info (combine_parts p1 p2 p3 info nowStr) (some t)
         nowStr fmtDate)
      (combine_parts p1 p2 p3 info nowStr) = true ∧
    str_contains
      (create_markdown_content info (combine_parts p1 p2 p3 info nowStr) (some t)
         nowStr fmtDate) info.video_id = true ∧
    str_contains
      (create_markdown_content info (combine_parts p1 p2 p3 info nowStr) (some t)
         nowStr fmtDate) info.title = true ∧
    str_contains
      (create_markdown_content info (combine_parts p1 p2 p3 info nowStr) (some t)
         nowStr fmtDate) (youtube_url_of info.video_id) = true := by
  rcases hcq : can_make_request extractor_params now (clean_old_requests now rl)
    with ⟨dec, d'⟩
  rw [hcq] at hallow
  simp only at hallow
  subst hallow
  have hwait : wait_if_needed extractor_params now (clean_old_requests now rl) =
      (.proceed 0, d') := by
    simp [wait_if_needed, hcq]
  have hext : extract_transcript now rl (some t) =
      (some t, record_request now true d', 1) := by
    simp [extract_transcript, hwait]
  have hget : get_transcript false now rec.video_id db rl (some t) =
      (.ok (some t), cache_transcript_record db rec.video_id t,
       record_request now true d', 1) := by
    simp [get_transcript, hcache, hext]
  have hgen : generate_comprehensive_summary api_delay now info nowStr
      (fun part _ =>
        ApiOutcome.success (if part = 0 then p1 else if part = 1 then p2 else p3))
      initial_summarizer_state =
      (.ok (combine_parts p1 p2 p3 info nowStr), ⟨0, none, now⟩, 3) := by
    simp [generate_comprehensive_summary, make_api_call, check_circuit_breaker,
      circuit_breaker_threshold, api_retry_loop, initial_summarizer_state,
      remote_fail_env]
  refine ⟨?_, ?_, ?_, ?_, ?_, ?_, ?_⟩
  · simp [process_single_video, remote_fail_env, init_state, hget, hgen,
      create_summary_page_step]
  · simp [process_single_video, remote_fail_env, init_state, hget, hgen,
      create_summary_page_step]
  · simp [process_single_video, remote_fail_env, init_state, hget, hgen,
      create_summary_page_step]
  · exact str_contains_mid _ _ _
  · apply str_contains_append_left
    apply str_contains_append_left
    apply str_contains_append_left
    apply str_contains_append_left
    apply str_contains_append_left
    apply str_contains_append_left
    apply str_contains_append_left
    apply str_contains_append_left
    apply str_contains_append_left
    apply str_contains_append_left
    apply str_contains_append_left
    apply str_contains_append_left
    apply str_contains_append_right
    exact str_contains_self _
  · apply str_contains_append_left
    apply str_contains_append_left
    apply str_contains_append_left
    apply str_contains_append_left
    apply str_contains_append_left
    apply str_contains_append_left
    apply str_contains_append_left
    apply str_contains_append_left
    apply str_contains_append_left
    apply str_contains_append_left
    apply str_contains_append_left
    apply str_contains_append_left
    apply str_contains_append_left
    apply str_contains_append_left
    apply str_contains_append_right
    exact str_contains_self _
  · apply str_contains_append_left
    apply str_contains_append_left
    apply str_contains_append_left
    apply str_contains_append_left
    apply str_contains_append_right
    exact str_contains_self _

/-- Witness for C4 at concrete inputs: empty cache, fresh rate limiter,
tiny part texts — the run succeeds, the statuses are Processing then
Completed, and the single artifact contains the summary. -/
theorem C4_remote_write_failure_falls_back_to_local_artifact_witness :
    is_video_processed ([] : LocalDb) new_record.video_id = false ∧
    (can_make_request extractor_params 0 (clean_old_requests 0 rl_empty)).1 =
      .allowed ∧
    (process_single_video 0 10
        (remote_fail_env sample_info "tr" "one" "two" "three" "N" "D" false)
        new_record false (init_state [] rl_empty)).1 = true ∧
    (process_single_video 0 10
        (remote_fail_env sample_info "tr" "one" "two" "three" "N" "D" false)
        new_record false (init_state [] rl_empty)).2.statusWrites.map
        StatusWrite.status = ["Processing", "Completed"] ∧
    (process_single_video 0 10
        (remote_fail_env sample_info "tr" "one" "two" "three" "N" "D" false)
        new_record false (init_state [] rl_empty)).2.backups =
      [create_markdown_content sample_info
         (combine_parts "one" "two" "three" sample_info "N") (some "tr") "N" "D"] ∧
    str_contains
      (create_markdown_content sample_info
        (combine_parts "one" "two" "three" sample_info "N") (some "tr") "N" "D")
      (combine_parts "one" "two" "three" sample_info "N") = true := by
  have h := C4_remote_write_failure_falls_back_to_local_artifact 0 10 new_record
    sample_info [] rl_empty "tr" "one" "two" "three" "N" "D" (by decide) (by decide)
  exact ⟨by decide, by decide, h.1, h.2.1, h.2.2.1, h.2.2.2.1⟩

/-- C9: when, after a summary is generated, both the remote summary-page
write and the local markdown backup fail, the backup exception is swallowed
(the run still returns `True`), the item is still written "Completed" to
the remote tracking store, the local ledger row ends with
`summary_generated = true` (and `notion_page_created = false`), and no
fallback artifact exists: reaching Completed does not imply any artifact
write succeeded. -/
theorem C9_backup_failure_swallowed_item_still_completed
    (now api_delay : ℤ) (rec : VideoRecord) (info : VideoInfo)
    (db : LocalDb) (rl : RateLimiterData) (t p1 p2 p3 nowStr fmtDate : String)
    (hcache : is_video_processed db rec.video_id = false)
    (hallow : (can_make_request extractor_params now (clean_old_requests now rl)).1 =
      .allowed) :
    (process_single_video now api_delay
        (remote_fail_env info t p1 p2 p3 nowStr fmtDate true) rec false
        (init_state db rl)).1 = true ∧
    (process_single_video now api_delay
        (remote_fail_env info t p1 p2 p3 nowStr fmtDate true) rec false
        (init_state db rl)).2.statusWrites.map StatusWrite.status =
      ["Processing", "Completed"] ∧
    (process_single_video now api_delay
        (remote_fail_env info t p1 p2 p3 nowStr fmtDate true) rec false
        (init_state db rl)).2.backups = [] ∧
    (∃ u, db_get (process_single_video now api_delay
          (remote_fail_env info t p1 p2 p3 nowStr fmtDate true) rec false
          (init_state db rl)).2.db rec.video_id = some u ∧
       u.summary_generated = true ∧ u.notion_page_created = false) := by
  rcases hcq : can_make_request extractor_params now (clean_old_requests now rl)
    with ⟨dec, d'⟩
  rw [hcq] at hallow
  simp only at hallow
  subst hallow
  have hwait : wait_if_needed extractor_params now (clean_old_requests now rl) =
      (.proceed 0, d') := by
    simp [wait_if_needed, hcq]
  have hext : extract_transcript now rl (some t) =
      (some t, record_request now true d', 1) := by
    simp [extract_transcript, hwait]
  have hget : get_transcript false now rec.video_id db rl (some t) =
      (.ok (some t), cache_transcript_record db rec.video_id t,
       record_request now true d', 1) := by
    simp [get_transcript, hcache, hext]
  have hgen : generate_comprehensive_summary api_delay now info nowStr
      (fun part _ =>
        ApiOutcome.success (if part = 0 then p1 else if part = 1 then p2 else p3))
      initial_summarizer_state =
      (.ok (combine_parts p1 p2 p3 info nowStr), ⟨0, none, now⟩, 3) := by
    simp [generate_comprehensive_summary, make_api_call, check_circuit_breaker,
      circuit_breaker_threshold, api_retry_loop, initial_summarizer_state,
      remote_fail_env]
  refine ⟨?_, ?_, ?_, ?_⟩
  · simp [process_single_video, remote_fail_env, init_state, hget, hgen,
      create_summary_page_step]
  · simp [process_single_video, remote_fail_env, init_state, hget, hgen,
      create_summary_page_step]
  · simp [process_single_video, remote_fail_env, init_state, hget, hgen,
      create_summary_page_step]
  · obtain ⟨u0, hu0⟩ := db_get_cache_isSome db rec.video_id t
    refine ⟨{ u0 with summary_generated := true, notion_page_created := false }, ?_, rfl, rfl⟩
    have hdb : (process_single_video now api_delay
        (remote_fail_env info t p1 p2 p3 nowStr fmtDate true) rec false
        (init_state db rl)).2.db =
        db_update_summary_flags (cache_transcript_record db rec.video_id t)
          rec.video_id true false := by
      simp [process_single_video, remote_fail_env, init_state, hget, hgen,
        create_summary_page_step]
    rw [hdb]
    exact db_get_update_flags _ _ _ _ _ hu0

/-- Witness for C9 at concrete inputs: an empty cache and fresh governor;
the run returns success, marks Completed, leaves no artifact, and the
ledger row has `summary_generated = true`. -/
theorem C9_backup_failure_swallowed_item_still_completed_witness :
    is_video_processed ([] : LocalDb) new_record.video_id = false ∧
    (can_make_request extractor_params 0 (clean_old_requests 0 rl_empty)).1 =
      .allowed ∧
    (process_single_video 0 10
        (remote_fail_env sample_info "tr" "one" "two" "three" "N" "D" true)
        new_record false (init_state [] rl_empty)).1 = true ∧
    (process_single_video 0 10
        (remote_fail_env sample_info "tr" "one" "two" "three" "N" "D" true)
        new_record false (init_state [] rl_empty)).2.backups = [] ∧
    (∃ u, db_get (process_single_video 0 10
          (remote_fail_env sample_info "tr" "one" "two" "three" "N" "D" true)
          new_record false (init_state [] rl_empty)).2.db new_record.video_id =
        some u ∧ u.summary_generated = true ∧ u.notion_page_created = false) := by
  have h := C9_backup_failure_swallowed_item_still_completed 0 10 new_record
    sample_info [] rl_empty "tr" "one" "two" "three" "N" "D" (by decide) (by decide)
  exact ⟨by decide, by decide, h.1, h.2.2.1, h.2.2.2⟩

end TranscriptsMVP
